import Mathlib

/-!
Shallow embedding of the persistence / referential-integrity core of the
pms-python repository (src/app/models.py, src/app/repository.py, src/app/db.py).

The store is SQLite (db.py: sqlite URL, PRAGMA foreign_keys=ON), accessed
through SQLAlchemy ORM sessions.  Each repository function in
src/app/repository.py is embedded as a pure Lean function over an explicit
`Store`; SQLAlchemy `flush` (which emits the INSERT/UPDATE and is where SQLite
enforces UNIQUE and FOREIGN KEY constraints) is inlined at the point each
source function calls `session.flush()`.  Exceptions are embedded as the
`PyErr` type returned through `Except`.
-/

namespace PMS

/-- Drops leading characters satisfying `Char.isWhitespace` from a char list.
Building block for `pyStrip`. -/
def dropWhileSpace : List Char → List Char
| [] => []
| c :: cs => if c.isWhitespace then dropWhileSpace cs else c :: cs

/-- Models Python `str.strip()`: removes whitespace from both ends of a
string (used by every repository create/update for free-text fields). -/
def pyStrip (s : String) : String :=
  ⟨(dropWhileSpace (dropWhileSpace s.data).reverse).reverse⟩

/-- Models the source idiom `(v or '').strip() or None` used for optional
text fields (state, country, address): `None` becomes `''`, the result is
stripped, and an empty string becomes `None`. -/
def normOpt (v : Option String) : Option String :=
  let t := pyStrip (v.getD "")
  if t = "" then none else some t

/-- SQL equality on nullable columns as SQLite evaluates it inside a UNIQUE
constraint: `NULL` compares unequal to everything, including `NULL`.  Two
rows conflict only when every constrained column is non-NULL and equal. -/
def sqlEq {α : Type} [DecidableEq α] : Option α → Option α → Bool
| some a, some b => a = b
| _, _ => false

/-- Row of the `cities` table (models.py `City`). -/
structure City where
  id : Nat
  name : String
  state : Option String
  country : Option String
deriving Repr, DecidableEq

/-- Row of the `neighborhoods` table (models.py `Neighborhood`). -/
structure Neighborhood where
  id : Nat
  name : String
  city_id : Nat
deriving Repr, DecidableEq

/-- Row of the `streets` table (models.py `Street`). -/
structure Street where
  id : Nat
  name : String
  neighborhood_id : Nat
deriving Repr, DecidableEq

/-- Row of the `police_stations` table (models.py `PoliceStation`);
`city_id` is nullable (FK declared `ondelete="SET NULL"`). -/
structure PoliceStation where
  id : Nat
  name : String
  city_id : Option Nat
  address : Option String
deriving Repr, DecidableEq

/-- The committed database state: the four tables of models.py. -/
structure Store where
  cities : List City
  neighborhoods : List Neighborhood
  streets : List Street
  policeStations : List PoliceStation
deriving Repr, DecidableEq

/-- The freshly initialised database (init_db.py creates empty tables). -/
def emptyStore : Store := ⟨[], [], [], []⟩

/-- Python exceptions crossing the repository boundary: `ValueError` (raised
by update/delete on a missing id), SQLAlchemy `IntegrityError` (UNIQUE or
FOREIGN KEY violation surfaced at flush/commit), the repository's own
`DuplicateError`, and any other exception. -/
inductive PyErr where
| valueError (msg : String)
| integrityError (msg : String)
| duplicateError (msg : String)
| otherError (msg : String)
deriving Repr, DecidableEq

/-- SQLite rowid allocation for an `INTEGER PRIMARY KEY` column declared
without `AUTOINCREMENT` (as all four models declare it): the new rowid is
one more than the largest rowid currently in the table, so ids restart from
1 on an empty table and can be re-issued after the highest row is deleted. -/
def nextId (ids : List Nat) : Nat := ids.foldr max 0 + 1

/-- UNIQUE-constraint conflict between two `cities` rows
(`uq_city_name_state_country` on name, state, country): nullable columns
compare with SQL semantics (`sqlEq`). -/
def cityConflict (a b : City) : Bool :=
  a.name = b.name && sqlEq a.state b.state && sqlEq a.country b.country

/-- UNIQUE-constraint conflict between two `neighborhoods` rows
(`uq_neighborhood_name_city`); both columns are NOT NULL. -/
def nbConflict (a b : Neighborhood) : Bool :=
  a.name = b.name && a.city_id = b.city_id

/-- UNIQUE-constraint conflict between two `streets` rows
(`uq_street_name_neighborhood`); both columns are NOT NULL. -/
def stConflict (a b : Street) : Bool :=
  a.name = b.name && a.neighborhood_id = b.neighborhood_id

/-- UNIQUE-constraint conflict between two `police_stations` rows
(`uq_police_station_name_city`); `city_id` is nullable so two rows with
NULL city never conflict (SQL semantics). -/
def psConflict (a b : PoliceStation) : Bool :=
  a.name = b.name && sqlEq a.city_id b.city_id

/-- SQLite message for a violated cities UNIQUE constraint. -/
def cityUqMsg : String := "UNIQUE constraint failed: cities.name, cities.state, cities.country"

/-- SQLite message for a violated neighborhoods UNIQUE constraint. -/
def nbUqMsg : String := "UNIQUE constraint failed: neighborhoods.name, neighborhoods.city_id"

/-- SQLite message for a violated streets UNIQUE constraint. -/
def stUqMsg : String := "UNIQUE constraint failed: streets.name, streets.neighborhood_id"

/-- SQLite message for a violated police_stations UNIQUE constraint. -/
def psUqMsg : String := "UNIQUE constraint failed: police_stations.name, police_stations.city_id"

/-- SQLite message for a violated foreign-key constraint (PRAGMA
foreign_keys=ON is set in db.py). -/
def fkMsg : String := "FOREIGN KEY constraint failed"

/-- Insert into a list sorted by `le` (helper for `sortByLe`). -/
def insertByLe {α : Type} (le : α → α → Bool) (a : α) : List α → List α
| [] => [a]
| b :: bs => if le a b then a :: b :: bs else b :: insertByLe le a bs

/-- Insertion sort; models the SQL `ORDER BY name` ascending that every
list_* query applies. -/
def sortByLe {α : Type} (le : α → α → Bool) : List α → List α
| [] => []
| a :: as => insertByLe le a (sortByLe le as)

/-- Lexicographic comparison of char lists by code point (helper for
`nameLe`). -/
def lexLe : List Char → List Char → Bool
| [], _ => true
| _ :: _, [] => false
| a :: as, b :: bs => if a = b then lexLe as bs else decide (a < b)

/-- Byte-wise ascending comparison on the stored name strings (SQLite's
default BINARY collation for `ORDER BY name`); on UTF-8 data byte order
coincides with code-point lexicographic order. -/
def nameLe (a b : String) : Bool := lexLe a.data b.data

-- Cities (repository.py)

/-- repository.list_cities: all cities ordered by name ascending; the rows
are expunged (detached copies), which a value-level embedding models by
returning plain values. -/
def list_cities (s : Store) : List City :=
  sortByLe (fun a b => nameLe a.name b.name) s.cities

/-- repository.create_city: builds the row with `name.strip()` and
`(v or '').strip() or None` for state/country, then `session.flush()` emits
the INSERT, where SQLite assigns the rowid and enforces
`uq_city_name_state_country` (violation: `IntegrityError`). -/
def create_city (s : Store) (name : String) (state country : Option String) :
    Except PyErr (City × Store) :=
  let c : City :=
    { id := nextId (s.cities.map City.id)
      name := pyStrip name
      state := normOpt state
      country := normOpt country }
  if s.cities.any (fun c0 => cityConflict c0 c) then
    .error (.integrityError cityUqMsg)
  else
    .ok (c, { s with cities := s.cities ++ [c] })

/-- repository.update_city: `session.get` by primary key, `ValueError` when
missing; otherwise the same normalisation as create is applied in place and
`flush` re-checks the UNIQUE constraint against the other rows. -/
def update_city (s : Store) (city_id : Nat) (name : String)
    (state country : Option String) : Except PyErr (City × Store) :=
  match s.cities.find? (fun c => c.id == city_id) with
  | none => .error (.valueError "City not found")
  | some c =>
    let c2 : City :=
      { c with name := pyStrip name, state := normOpt state, country := normOpt country }
    if (s.cities.filter (fun c0 => c0.id != city_id)).any (fun c0 => cityConflict c0 c2) then
      .error (.integrityError cityUqMsg)
    else
      .ok (c2, { s with cities := s.cities.map (fun c0 => if c0.id == city_id then c2 else c0) })

/-- repository.delete_city: `session.get` then `session.delete`.  models.py
declares `cascade="all, delete-orphan"` on both `City.neighborhoods` and
`City.police_stations`, and on `Neighborhood.streets`, so the ORM delete
removes the city, every neighborhood of the city, every street of those
neighborhoods, and every police station referencing the city.  The
column-level `ondelete="SET NULL"` on `PoliceStation.city_id` never fires,
because the ORM deletes the dependent rows itself before deleting the city
(the GUI confirm message likewise announces deletion of related stations). -/
def delete_city (s : Store) (city_id : Nat) : Except PyErr Store :=
  match s.cities.find? (fun c => c.id == city_id) with
  | none => .error (.valueError "City not found")
  | some _ =>
    .ok { cities := s.cities.filter (fun c => c.id != city_id)
          neighborhoods := s.neighborhoods.filter (fun nb => nb.city_id != city_id)
          streets := s.streets.filter (fun st =>
            !(s.neighborhoods.any (fun nb => nb.city_id == city_id && st.neighborhood_id == nb.id)))
          policeStations := s.policeStations.filter (fun ps => ps.city_id != some city_id) }

-- Neighborhoods (repository.py)

/-- repository.list_neighborhoods: the filter is applied with Python
truthiness (`if city_id:`), so both `None` and `0` leave the query
unfiltered; rows are ordered by name ascending. -/
def list_neighborhoods (s : Store) (city_id : Option Nat := none) : List Neighborhood :=
  let q := s.neighborhoods
  let q := match city_id with
    | some cid => if cid ≠ 0 then q.filter (fun nb => nb.city_id == cid) else q
    | none => q
  sortByLe (fun a b => nameLe a.name b.name) q

/-- repository.create_neighborhood: strips the name, INSERTs at flush;
SQLite enforces the FK to cities (PRAGMA foreign_keys=ON) and
`uq_neighborhood_name_city`. -/
def create_neighborhood (s : Store) (name : String) (city_id : Nat) :
    Except PyErr (Neighborhood × Store) :=
  let nb : Neighborhood :=
    { id := nextId (s.neighborhoods.map Neighborhood.id)
      name := pyStrip name
      city_id := city_id }
  if !(s.cities.any (fun c => c.id == city_id)) then
    .error (.integrityError fkMsg)
  else if s.neighborhoods.any (fun nb0 => nbConflict nb0 nb) then
    .error (.integrityError nbUqMsg)
  else
    .ok (nb, { s with neighborhoods := s.neighborhoods ++ [nb] })

/-- repository.update_neighborhood: `ValueError` when the id is missing;
otherwise strips the name, reassigns `city_id`, and flush re-checks the FK
and the UNIQUE constraint against the other rows. -/
def update_neighborhood (s : Store) (nb_id : Nat) (name : String) (city_id : Nat) :
    Except PyErr (Neighborhood × Store) :=
  match s.neighborhoods.find? (fun nb => nb.id == nb_id) with
  | none => .error (.valueError "Neighborhood not found")
  | some nb =>
    let nb2 : Neighborhood := { nb with name := pyStrip name, city_id := city_id }
    if !(s.cities.any (fun c => c.id == city_id)) then
      .error (.integrityError fkMsg)
    else if (s.neighborhoods.filter (fun nb0 => nb0.id != nb_id)).any
        (fun nb0 => nbConflict nb0 nb2) then
      .error (.integrityError nbUqMsg)
    else
      .ok (nb2,
        { s with neighborhoods := s.neighborhoods.map (fun nb0 => if nb0.id == nb_id then nb2 else nb0) })

/-- repository.delete_neighborhood: `ValueError` when missing; the ORM
cascade `all, delete-orphan` on `Neighborhood.streets` also removes every
street of the neighborhood. -/
def delete_neighborhood (s : Store) (nb_id : Nat) : Except PyErr Store :=
  match s.neighborhoods.find? (fun nb => nb.id == nb_id) with
  | none => .error (.valueError "Neighborhood not found")
  | some _ =>
    .ok { s with
          neighborhoods := s.neighborhoods.filter (fun nb => nb.id != nb_id)
          streets := s.streets.filter (fun st => st.neighborhood_id != nb_id) }

-- Streets (repository.py)

/-- repository.list_streets: same Python-truthiness filter on
`neighborhood_id`; ordered by name ascending. -/
def list_streets (s : Store) (neighborhood_id : Option Nat := none) : List Street :=
  let q := s.streets
  let q := match neighborhood_id with
    | some nid => if nid ≠ 0 then q.filter (fun st => st.neighborhood_id == nid) else q
    | none => q
  sortByLe (fun a b => nameLe a.name b.name) q

/-- repository.create_street: strips the name; flush enforces the FK to
neighborhoods and `uq_street_name_neighborhood`. -/
def create_street (s : Store) (name : String) (neighborhood_id : Nat) :
    Except PyErr (Street × Store) :=
  let st : Street :=
    { id := nextId (s.streets.map Street.id)
      name := pyStrip name
      neighborhood_id := neighborhood_id }
  if !(s.neighborhoods.any (fun nb => nb.id == neighborhood_id)) then
    .error (.integrityError fkMsg)
  else if s.streets.any (fun st0 => stConflict st0 st) then
    .error (.integrityError stUqMsg)
  else
    .ok (st, { s with streets := s.streets ++ [st] })

/-- repository.update_street: `ValueError` when the id is missing; flush
re-checks FK and the UNIQUE constraint against the other rows. -/
def update_street (s : Store) (st_id : Nat) (name : String) (neighborhood_id : Nat) :
    Except PyErr (Street × Store) :=
  match s.streets.find? (fun st => st.id == st_id) with
  | none => .error (.valueError "Street not found")
  | some st =>
    let st2 : Street := { st with name := pyStrip name, neighborhood_id := neighborhood_id }
    if !(s.neighborhoods.any (fun nb => nb.id == neighborhood_id)) then
      .error (.integrityError fkMsg)
    else if (s.streets.filter (fun st0 => st0.id != st_id)).any
        (fun st0 => stConflict st0 st2) then
      .error (.integrityError stUqMsg)
    else
      .ok (st2,
        { s with streets := s.streets.map (fun st0 => if st0.id == st_id then st2 else st0) })

/-- repository.delete_street: `ValueError` when missing, otherwise removes
the single row. -/
def delete_street (s : Store) (st_id : Nat) : Except PyErr Store :=
  match s.streets.find? (fun st => st.id == st_id) with
  | none => .error (.valueError "Street not found")
  | some _ =>
    .ok { s with streets := s.streets.filter (fun st => st.id != st_id) }

-- Police stations (repository.py)

/-- repository.list_police_stations: Python-truthiness filter on `city_id`;
the SQL comparison `police_stations.city_id == cid` is false for NULL rows,
so a present non-zero filter keeps only rows whose city is exactly `cid`. -/
def list_police_stations (s : Store) (city_id : Option Nat := none) : List PoliceStation :=
  let q := s.policeStations
  let q := match city_id with
    | some cid => if cid ≠ 0 then q.filter (fun ps => ps.city_id == some cid) else q
    | none => q
  sortByLe (fun a b => nameLe a.name b.name) q

/-- repository.create_police_station: strips name and address (address via
`(address or '').strip() or None`); `city_id` is stored as given; flush
enforces the FK (only when a city is given) and
`uq_police_station_name_city`. -/
def create_police_station (s : Store) (name : String) (city_id : Option Nat)
    (address : Option String) : Except PyErr (PoliceStation × Store) :=
  let ps : PoliceStation :=
    { id := nextId (s.policeStations.map PoliceStation.id)
      name := pyStrip name
      city_id := city_id
      address := normOpt address }
  if !(match city_id with
       | some cid => s.cities.any (fun c => c.id == cid)
       | none => true) then
    .error (.integrityError fkMsg)
  else if s.policeStations.any (fun ps0 => psConflict ps0 ps) then
    .error (.integrityError psUqMsg)
  else
    .ok (ps, { s with policeStations := s.policeStations ++ [ps] })

/-- repository.update_police_station: `ValueError` when the id is missing;
otherwise re-applies the same normalisation and flush re-checks FK and the
UNIQUE constraint against the other rows. -/
def update_police_station (s : Store) (ps_id : Nat) (name : String)
    (city_id : Option Nat) (address : Option String) :
    Except PyErr (PoliceStation × Store) :=
  match s.policeStations.find? (fun ps => ps.id == ps_id) with
  | none => .error (.valueError "Police station not found")
  | some ps =>
    let ps2 : PoliceStation :=
      { ps with name := pyStrip name, city_id := city_id, address := normOpt address }
    if !(match city_id with
         | some cid => s.cities.any (fun c => c.id == cid)
         | none => true) then
      .error (.integrityError fkMsg)
    else if (s.policeStations.filter (fun ps0 => ps0.id != ps_id)).any
        (fun ps0 => psConflict ps0 ps2) then
      .error (.integrityError psUqMsg)
    else
      .ok (ps2,
        { s with policeStations := s.policeStations.map (fun ps0 => if ps0.id == ps_id then ps2 else ps0) })

/-- repository.delete_police_station: `ValueError` when missing, otherwise
removes the single row. -/
def delete_police_station (s : Store) (ps_id : Nat) : Except PyErr Store :=
  match s.policeStations.find? (fun ps => ps.id == ps_id) with
  | none => .error (.valueError "Police station not found")
  | some _ =>
    .ok { s with policeStations := s.policeStations.filter (fun ps => ps.id != ps_id) }

-- Unit of work (repository.get_session) and integrity translation

/-- Observable outcome of one `with get_session() as s:` scope: what the
caller sees (`result`), the durable state after the scope (`persisted`),
whether `session.rollback()` ran, and whether `session.close()` ran. -/
structure SessionOutcome (α : Type) where
  result : Except PyErr α
  persisted : Store
  rolledBack : Bool
  closed : Bool
deriving Repr

/-- repository.get_session: the contextmanager opens a session on the
durable state `s0`, yields to the body, commits on normal completion, and
on any exception (from the body or from the commit, the latter modelled by
`commitFail` on the body's final state) rolls back to `s0` and re-raises
the same exception; `session.close()` runs in the `finally` block on every
path. -/
def get_session {α : Type} (s0 : Store) (body : Store → Except PyErr (α × Store))
    (commitFail : Store → Option PyErr) : SessionOutcome α :=
  match body s0 with
  | .error e => { result := .error e, persisted := s0, rolledBack := true, closed := true }
  | .ok (a, s1) =>
    match commitFail s1 with
    | some e => { result := .error e, persisted := s0, rolledBack := true, closed := true }
    | none => { result := .ok a, persisted := s1, rolledBack := false, closed := true }

/-- repository.commit_with_integrity_handling applied to the outcome of
`session.commit()`: an `IntegrityError` is caught, the session is rolled
back (second component), and `DuplicateError(str(e))` is raised — the new
exception's message is `str` of the caught one; any other outcome passes
through with no rollback. -/
def commit_with_integrity_handling (r : Except PyErr Unit) : Except PyErr Unit × Bool :=
  match r with
  | .error (.integrityError msg) => (.error (.duplicateError msg), true)
  | r => (r, false)

-- General helper lemmas

theorem mem_insertByLe {α : Type} (le : α → α → Bool) (a x : α) (l : List α) :
    x ∈ insertByLe le a l ↔ x = a ∨ x ∈ l := by
  induction l with
  | nil => simp [insertByLe]
  | cons b bs ih =>
    simp only [insertByLe]
    split
    · simp [or_assoc]
    · simp only [List.mem_cons, ih]
      tauto

theorem mem_sortByLe {α : Type} (le : α → α → Bool) (x : α) (l : List α) :
    x ∈ sortByLe le l ↔ x ∈ l := by
  induction l with
  | nil => simp [sortByLe]
  | cons a as ih => simp [sortByLe, mem_insertByLe, ih]

theorem le_foldr_max (x : Nat) (l : List Nat) (h : x ∈ l) : x ≤ l.foldr max 0 := by
  induction l with
  | nil => simp at h
  | cons a as ih =>
    simp only [List.mem_cons] at h
    simp only [List.foldr]
    rcases h with h | h
    · omega
    · have := ih h
      omega

theorem lt_nextId (x : Nat) (l : List Nat) (h : x ∈ l) : x < nextId l := by
  have := le_foldr_max x l h
  simp only [nextId]
  omega

theorem find?_key_filter {α : Type} (f : α → Nat) (k : Nat) (l : List α) :
    (l.filter (fun a => f a != k)).find? (fun a => f a == k) = none := by
  induction l with
  | nil => rfl
  | cons a as ih =>
    by_cases h : f a = k
    · have hb : (f a != k) = false := by simp [h]
      simp [List.filter_cons, hb, ih]
    · have hb : (f a != k) = true := by simp [h]
      rw [List.filter_cons, if_pos hb, List.find?_cons_of_neg, ih]
      simp [h]

theorem map_map_eq_of {α β : Type} (l : List α) (g : α → α) (f : α → β)
    (h : ∀ a ∈ l, f (g a) = f a) : (l.map g).map f = l.map f := by
  induction l with
  | nil => rfl
  | cons a as ih =>
    simp only [List.map, List.cons.injEq]
    exact ⟨h a (by simp), ih (fun a ha => h a (by simp [ha]))⟩

theorem sqlEq_none_right {α : Type} [DecidableEq α] (x : Option α) :
    sqlEq x none = false := by
  cases x <;> rfl

theorem cityConflict_state_none (a b : City) (hb : b.state = none) :
    cityConflict a b = false := by
  simp [cityConflict, hb, sqlEq_none_right]

theorem mem_list_neighborhoods (s : Store) (f : Option Nat) (nb : Neighborhood)
    (h : nb ∈ list_neighborhoods s f) : nb ∈ s.neighborhoods := by
  simp only [list_neighborhoods] at h
  rw [mem_sortByLe] at h
  rcases f with _ | cid
  · exact h
  · dsimp only at h
    split at h
    · exact List.mem_of_mem_filter h
    · exact h

theorem mem_list_streets (s : Store) (f : Option Nat) (st : Street)
    (h : st ∈ list_streets s f) : st ∈ s.streets := by
  simp only [list_streets] at h
  rw [mem_sortByLe] at h
  rcases f with _ | nid
  · exact h
  · dsimp only at h
    split at h
    · exact List.mem_of_mem_filter h
    · exact h

theorem mem_list_police_stations (s : Store) (f : Option Nat) (ps : PoliceStation)
    (h : ps ∈ list_police_stations s f) : ps ∈ s.policeStations := by
  simp only [list_police_stations] at h
  rw [mem_sortByLe] at h
  rcases f with _ | cid
  · exact h
  · dsimp only at h
    split at h
    · exact List.mem_of_mem_filter h
    · exact h

-- Claim theorems

/-- Claim C3: for every body passed to the unit-of-work scope, normal
completion commits the body's final state; a failure of the body or of the
commit rolls the durable state back to the initial one and re-raises the
very same failure; and the session is closed on every exit path. -/
theorem get_session_contract {α : Type} (s0 : Store)
    (body : Store → Except PyErr (α × Store)) (commitFail : Store → Option PyErr) :
    (get_session s0 body commitFail).closed = true ∧
    (∀ a s1, body s0 = Except.ok (a, s1) → commitFail s1 = none →
      get_session s0 body commitFail =
        { result := Except.ok a, persisted := s1, rolledBack := false, closed := true }) ∧
    (∀ e, body s0 = Except.error e →
      get_session s0 body commitFail =
        { result := Except.error e, persisted := s0, rolledBack := true, closed := true }) ∧
    (∀ a s1 e, body s0 = Except.ok (a, s1) → commitFail s1 = some e →
      get_session s0 body commitFail =
        { result := Except.error e, persisted := s0, rolledBack := true, closed := true }) := by
  refine ⟨?_, ?_, ?_, ?_⟩
  · cases hb : body s0 with
    | error e => simp [get_session, hb]
    | ok p =>
      cases hc : commitFail p.2 with
      | none => simp [get_session, hb, hc]
      | some e => simp [get_session, hb, hc]
  · intro a s1 hb hc
    simp [get_session, hb, hc]
  · intro e hb
    simp [get_session, hb]
  · intro a s1 e hb hc
    simp [get_session, hb, hc]

/-- Concrete unit-of-work body that succeeds with value 7. -/
def c3BodyOk : Store → Except PyErr (Nat × Store) := fun s => Except.ok (7, s)

/-- Concrete unit-of-work body that raises. -/
def c3BodyErr : Store → Except PyErr (Nat × Store) :=
  fun _ => Except.error (PyErr.otherError "body failed")

/-- Commit that always succeeds. -/
def c3CommitOk : Store → Option PyErr := fun _ => none

/-- Commit that always raises. -/
def c3CommitErr : Store → Option PyErr := fun _ => some (PyErr.otherError "commit failed")

/-- Witness for claim C3 at concrete bodies and commit outcomes. -/
theorem get_session_contract_witness :
    get_session emptyStore c3BodyOk c3CommitOk =
      { result := Except.ok 7, persisted := emptyStore, rolledBack := false, closed := true } ∧
    get_session emptyStore c3BodyErr c3CommitOk =
      { result := Except.error (PyErr.otherError "body failed"), persisted := emptyStore,
        rolledBack := true, closed := true } ∧
    get_session emptyStore c3BodyOk c3CommitErr =
      { result := Except.error (PyErr.otherError "commit failed"), persisted := emptyStore,
        rolledBack := true, closed := true } :=
  ⟨(get_session_contract emptyStore c3BodyOk c3CommitOk).2.1 7 emptyStore rfl rfl,
   (get_session_contract emptyStore c3BodyErr c3CommitOk).2.2.1
     (PyErr.otherError "body failed") rfl,
   (get_session_contract emptyStore c3BodyOk c3CommitErr).2.2.2 7 emptyStore
     (PyErr.otherError "commit failed") rfl rfl⟩

/-- Claim C8 (amended): the integrity translator converts EVERY
`IntegrityError` raised by the commit — uniqueness violations and other
integrity-constraint failures such as foreign-key violations alike, since
the source catches the whole `IntegrityError` class — into a
`DuplicateError` whose message carries the engine error text unchanged (it
is `str` of the caught error, not discarded), rolling the session back
first; only a commit failure that is not an `IntegrityError` propagates
unchanged, and without rollback. -/
theorem commit_with_integrity_handling_spec (e : PyErr)
    (h : ∀ m, e ≠ PyErr.integrityError m) :
    (∀ m, commit_with_integrity_handling (Except.error (PyErr.integrityError m)) =
      (Except.error (PyErr.duplicateError m), true)) ∧
    commit_with_integrity_handling (Except.error e) = (Except.error e, false) ∧
    commit_with_integrity_handling (Except.ok ()) = (Except.ok (), false) := by
  refine ⟨fun m => rfl, ?_, rfl⟩
  cases e with
  | valueError m => rfl
  | integrityError m => exact absurd rfl (h m)
  | duplicateError m => rfl
  | otherError m => rfl

/-- Witness for claim C8 at a concrete uniqueness message, the concrete
foreign-key violation message (also converted, since the source catches
the whole `IntegrityError` class), and a concrete non-integrity failure. -/
theorem commit_with_integrity_handling_spec_witness :
    commit_with_integrity_handling (Except.error (PyErr.integrityError cityUqMsg)) =
      (Except.error (PyErr.duplicateError cityUqMsg), true) ∧
    commit_with_integrity_handling (Except.error (PyErr.integrityError fkMsg)) =
      (Except.error (PyErr.duplicateError fkMsg), true) ∧
    commit_with_integrity_handling (Except.error (PyErr.otherError "disk full")) =
      (Except.error (PyErr.otherError "disk full"), false) ∧
    commit_with_integrity_handling (Except.ok ()) = (Except.ok (), false) := by
  have h := commit_with_integrity_handling_spec (PyErr.otherError "disk full")
    (fun _ hm => PyErr.noConfusion hm)
  exact ⟨h.1 cityUqMsg, h.1 fkMsg, h.2.1, h.2.2⟩

/-- Claim C8 counterexample: the translator is not the claimed exact
uniqueness-to-DuplicateEntity map.  A commit-time foreign-key
`IntegrityError` — not a uniqueness-constraint failure, so under the claim
a failure that must propagate to the caller unchanged — is also caught,
rolled back and converted to `DuplicateError`; and in both conversions the
new failure's content carries the storage-engine error text verbatim
(`DuplicateError(str(e))`) instead of discarding it. -/
theorem commit_keeps_engine_detail_cex :
    commit_with_integrity_handling (Except.error (PyErr.integrityError fkMsg)) =
      (Except.error (PyErr.duplicateError fkMsg), true) ∧
    commit_with_integrity_handling (Except.error (PyErr.integrityError cityUqMsg)) =
      (Except.error (PyErr.duplicateError cityUqMsg), true) := ⟨rfl, rfl⟩

/-- Claim C10: two Cities with the same name and absent state and country
never collide under `uq_city_name_state_country`, because SQL NULL never
compares equal inside a UNIQUE constraint; both creations succeed. -/
theorem create_city_null_never_collides (s : Store) (n : String) :
    ∃ c1 s1 c2 s2, create_city s n none none = Except.ok (c1, s1) ∧
      create_city s1 n none none = Except.ok (c2, s2) := by
  have key : ∀ s0 : Store, ∃ c s2, create_city s0 n none none = Except.ok (c, s2) := by
    intro s0
    simp only [create_city]
    have hany : (s0.cities.any fun c0 =>
        cityConflict c0 ⟨nextId (s0.cities.map City.id), pyStrip n, normOpt none, normOpt none⟩)
        = false := by
      rw [List.any_eq_false]
      intro c0 _
      simp only [Bool.not_eq_true]
      apply cityConflict_state_none
      rfl
    rw [hany]
    exact ⟨_, _, rfl⟩
  obtain ⟨c1, s1, h1⟩ := key s
  obtain ⟨c2, s2, h2⟩ := key s1
  exact ⟨c1, s1, c2, s2, h1, h2⟩

theorem delete_city_ok (s : Store) (cid : Nat) (s2 : Store)
    (h : delete_city s cid = Except.ok s2) :
    s2.cities = s.cities.filter (fun c => c.id != cid) ∧
    s2.neighborhoods = s.neighborhoods.filter (fun nb => nb.city_id != cid) ∧
    s2.streets = s.streets.filter (fun st =>
      !(s.neighborhoods.any (fun nb => nb.city_id == cid && st.neighborhood_id == nb.id))) ∧
    s2.policeStations = s.policeStations.filter (fun ps => ps.city_id != some cid) := by
  cases hf : s.cities.find? (fun c => c.id == cid) with
  | none => simp [delete_city, hf] at h
  | some c =>
    simp only [delete_city, hf, Except.ok.injEq] at h
    subst h
    exact ⟨rfl, rfl, rfl, rfl⟩

theorem delete_neighborhood_ok (s : Store) (nid : Nat) (s2 : Store)
    (h : delete_neighborhood s nid = Except.ok s2) :
    s2.cities = s.cities ∧
    s2.neighborhoods = s.neighborhoods.filter (fun nb => nb.id != nid) ∧
    s2.streets = s.streets.filter (fun st => st.neighborhood_id != nid) ∧
    s2.policeStations = s.policeStations := by
  cases hf : s.neighborhoods.find? (fun nb => nb.id == nid) with
  | none => simp [delete_neighborhood, hf] at h
  | some nb =>
    simp only [delete_neighborhood, hf, Except.ok.injEq] at h
    subst h
    exact ⟨rfl, rfl, rfl, rfl⟩

theorem delete_street_ok (s : Store) (stid : Nat) (s2 : Store)
    (h : delete_street s stid = Except.ok s2) :
    s2.streets = s.streets.filter (fun st => st.id != stid) := by
  cases hf : s.streets.find? (fun st => st.id == stid) with
  | none => simp [delete_street, hf] at h
  | some st =>
    simp only [delete_street, hf, Except.ok.injEq] at h
    subst h
    rfl

theorem delete_police_station_ok (s : Store) (pid : Nat) (s2 : Store)
    (h : delete_police_station s pid = Except.ok s2) :
    s2.policeStations = s.policeStations.filter (fun ps => ps.id != pid) := by
  cases hf : s.policeStations.find? (fun ps => ps.id == pid) with
  | none => simp [delete_police_station, hf] at h
  | some ps =>
    simp only [delete_police_station, hf, Except.ok.injEq] at h
    subst h
    rfl

/-- Claim C1 (amended): deleting a City also deletes every PoliceStation
whose city reference equals that City (the ORM `all, delete-orphan` cascade
on `City.police_stations`); stations referencing another city, or no city,
are left untouched.  The FK-level `SET NULL` never takes effect. -/
theorem delete_city_cascades_stations (s : Store) (cid : Nat) (s2 : Store)
    (h : delete_city s cid = Except.ok s2) :
    (∀ ps ∈ s.policeStations, ps.city_id = some cid → ps ∉ s2.policeStations) ∧
    (∀ ps ∈ s.policeStations, ps.city_id ≠ some cid → ps ∈ s2.policeStations) := by
  obtain ⟨-, -, -, hp⟩ := delete_city_ok s cid s2 h
  constructor
  · intro ps hmem hcity hmem2
    rw [hp] at hmem2
    have := (List.mem_filter.mp hmem2).2
    simp [hcity] at this
  · intro ps hmem hcity
    rw [hp]
    exact List.mem_filter.mpr ⟨hmem, by simp [hcity]⟩

/-- Store with one City and two PoliceStations, one attached to the City
and one unattached. -/
def c1Store : Store :=
  ⟨[⟨1, "Springfield", none, none⟩], [], [],
   [⟨1, "Alpha", some 1, none⟩, ⟨2, "Beta", none, none⟩]⟩

/-- State of `c1Store` after `delete_city 1`. -/
def c1Post : Store := ⟨[], [], [], [⟨2, "Beta", none, none⟩]⟩

/-- Witness for claim C1 (amended) on `c1Store`. -/
theorem delete_city_cascades_stations_witness :
    (⟨1, "Alpha", some 1, none⟩ : PoliceStation) ∉ c1Post.policeStations ∧
    (⟨2, "Beta", none, none⟩ : PoliceStation) ∈ c1Post.policeStations := by
  have h := delete_city_cascades_stations c1Store 1 c1Post rfl
  exact ⟨h.1 ⟨1, "Alpha", some 1, none⟩ (by decide) rfl,
         h.2 ⟨2, "Beta", none, none⟩ (by decide) (by decide)⟩

/-- Claim C1 counterexample: deleting City 1 from `c1Store` removes the
attached PoliceStation from the store entirely; it is not kept with its
city reference cleared to absent, as the claim states. -/
theorem delete_city_station_kept_cex :
    delete_city c1Store 1 = Except.ok c1Post ∧
    (⟨1, "Alpha", some 1, none⟩ : PoliceStation) ∉ c1Post.policeStations ∧
    (∀ ps ∈ c1Post.policeStations, ps.name ≠ "Alpha") := by
  refine ⟨rfl, by decide, by decide⟩

/-- Claim C2: deleting a City removes every Neighborhood referencing it
and, transitively, every Street under those Neighborhoods; afterwards no
list operation (any filter) returns any removed entity. -/
theorem delete_city_cascade (s : Store) (cid : Nat) (s2 : Store)
    (h : delete_city s cid = Except.ok s2) :
    (∀ nb ∈ s.neighborhoods, nb.city_id = cid → ∀ f, nb ∉ list_neighborhoods s2 f) ∧
    (∀ nb ∈ s.neighborhoods, nb.city_id = cid →
      ∀ st ∈ s.streets, st.neighborhood_id = nb.id → ∀ f, st ∉ list_streets s2 f) := by
  obtain ⟨-, hn, hst, -⟩ := delete_city_ok s cid s2 h
  constructor
  · intro nb hmem hcity f hin
    have hin2 : nb ∈ s2.neighborhoods := mem_list_neighborhoods s2 f nb hin
    rw [hn] at hin2
    have := (List.mem_filter.mp hin2).2
    simp [hcity] at this
  · intro nb hmem hcity st hstm hstnb f hin
    have hin2 : st ∈ s2.streets := mem_list_streets s2 f st hin
    rw [hst] at hin2
    have hflag := (List.mem_filter.mp hin2).2
    rw [Bool.not_eq_true', List.any_eq_false] at hflag
    exact absurd (by simp [hcity, hstnb]) (hflag nb hmem)

/-- Store with one City owning one Neighborhood which owns one Street. -/
def c2Store : Store := ⟨[⟨1, "C", none, none⟩], [⟨1, "N", 1⟩], [⟨1, "S", 1⟩], []⟩

/-- Witness for claim C2 on `c2Store`: after deleting City 1, the
neighborhood and the street are gone from the unfiltered listings. -/
theorem delete_city_cascade_witness :
    (⟨1, "N", 1⟩ : Neighborhood) ∉ list_neighborhoods emptyStore none ∧
    (⟨1, "S", 1⟩ : Street) ∉ list_streets emptyStore none := by
  have h := delete_city_cascade c2Store 1 emptyStore rfl
  exact ⟨h.1 ⟨1, "N", 1⟩ (by decide) rfl none,
         h.2 ⟨1, "N", 1⟩ (by decide) rfl ⟨1, "S", 1⟩ (by decide) rfl none⟩

/-- Claim C6: an update or delete aimed at an identity that has no row
fails with the entity's "not found" `ValueError` for every entity type (the
error is raised before any write, so the store is untouched), and a second
delete of an identity just deleted fails the same way. -/
theorem missing_identity_not_found (s : Store) (cid nid stid pid : Nat)
    (hc : s.cities.find? (fun c => c.id == cid) = none)
    (hn : s.neighborhoods.find? (fun nb => nb.id == nid) = none)
    (hs : s.streets.find? (fun st => st.id == stid) = none)
    (hp : s.policeStations.find? (fun ps => ps.id == pid) = none) :
    (∀ n st co, update_city s cid n st co = Except.error (PyErr.valueError "City not found")) ∧
    delete_city s cid = Except.error (PyErr.valueError "City not found") ∧
    (∀ n k, update_neighborhood s nid n k = Except.error (PyErr.valueError "Neighborhood not found")) ∧
    delete_neighborhood s nid = Except.error (PyErr.valueError "Neighborhood not found") ∧
    (∀ n k, update_street s stid n k = Except.error (PyErr.valueError "Street not found")) ∧
    delete_street s stid = Except.error (PyErr.valueError "Street not found") ∧
    (∀ n k ad, update_police_station s pid n k ad = Except.error (PyErr.valueError "Police station not found")) ∧
    delete_police_station s pid = Except.error (PyErr.valueError "Police station not found") ∧
    (∀ k s2, delete_city s k = Except.ok s2 →
      delete_city s2 k = Except.error (PyErr.valueError "City not found")) ∧
    (∀ k s2, delete_neighborhood s k = Except.ok s2 →
      delete_neighborhood s2 k = Except.error (PyErr.valueError "Neighborhood not found")) ∧
    (∀ k s2, delete_street s k = Except.ok s2 →
      delete_street s2 k = Except.error (PyErr.valueError "Street not found")) ∧
    (∀ k s2, delete_police_station s k = Except.ok s2 →
      delete_police_station s2 k = Except.error (PyErr.valueError "Police station not found")) := by
  refine ⟨?_, ?_, ?_, ?_, ?_, ?_, ?_, ?_, ?_, ?_, ?_, ?_⟩
  · intro n st co
    simp [update_city, hc]
  · simp [delete_city, hc]
  · intro n k
    simp [update_neighborhood, hn]
  · simp [delete_neighborhood, hn]
  · intro n k
    simp [update_street, hs]
  · simp [delete_street, hs]
  · intro n k ad
    simp [update_police_station, hp]
  · simp [delete_police_station, hp]
  · intro k s2 hdel
    obtain ⟨hcs, -, -, -⟩ := delete_city_ok s k s2 hdel
    have hnone : s2.cities.find? (fun c => c.id == k) = none := by
      rw [hcs]
      exact find?_key_filter City.id k s.cities
    simp [delete_city, hnone]
  · intro k s2 hdel
    obtain ⟨-, hns, -, -⟩ := delete_neighborhood_ok s k s2 hdel
    have hnone : s2.neighborhoods.find? (fun nb => nb.id == k) = none := by
      rw [hns]
      exact find?_key_filter Neighborhood.id k s.neighborhoods
    simp [delete_neighborhood, hnone]
  · intro k s2 hdel
    have hsts := delete_street_ok s k s2 hdel
    have hnone : s2.streets.find? (fun st => st.id == k) = none := by
      rw [hsts]
      exact find?_key_filter Street.id k s.streets
    simp [delete_street, hnone]
  · intro k s2 hdel
    have hpss := delete_police_station_ok s k s2 hdel
    have hnone : s2.policeStations.find? (fun ps => ps.id == k) = none := by
      rw [hpss]
      exact find?_key_filter PoliceStation.id k s.policeStations
    simp [delete_police_station, hnone]

/-- Store with one row in each table (all with id 1), for the C6 witness;
id 9 exists nowhere. -/
def c6Store : Store :=
  ⟨[⟨1, "C", none, none⟩], [⟨1, "N", 1⟩], [⟨1, "S", 1⟩], [⟨1, "P", some 1, none⟩]⟩

/-- Claim C5 (amended): every create and update operation trims the free-
text fields before storing them, and an optional text field that is empty
after trimming is stored as absent; a required field that is empty after
trimming is however NOT rejected — it is stored as the empty string, with
no ValidationError raised by the persistence layer (the counterexample
shows this). -/
theorem normalization_on_write (s : Store) :
    (∀ n st co c s2, create_city s n st co = Except.ok (c, s2) →
      c.name = pyStrip n ∧ c.state = normOpt st ∧ c.country = normOpt co) ∧
    (∀ cid n st co c s2, update_city s cid n st co = Except.ok (c, s2) →
      c.name = pyStrip n ∧ c.state = normOpt st ∧ c.country = normOpt co) ∧
    (∀ n k nb s2, create_neighborhood s n k = Except.ok (nb, s2) → nb.name = pyStrip n) ∧
    (∀ nid n k nb s2, update_neighborhood s nid n k = Except.ok (nb, s2) → nb.name = pyStrip n) ∧
    (∀ n k st s2, create_street s n k = Except.ok (st, s2) → st.name = pyStrip n) ∧
    (∀ stid n k st s2, update_street s stid n k = Except.ok (st, s2) → st.name = pyStrip n) ∧
    (∀ n k ad ps s2, create_police_station s n k ad = Except.ok (ps, s2) →
      ps.name = pyStrip n ∧ ps.address = normOpt ad) ∧
    (∀ pid n k ad ps s2, update_police_station s pid n k ad = Except.ok (ps, s2) →
      ps.name = pyStrip n ∧ ps.address = normOpt ad) := by
  refine ⟨?_, ?_, ?_, ?_, ?_, ?_, ?_, ?_⟩
  · intro n st co c s2 h
    simp only [create_city] at h
    split at h
    · simp at h
    · rw [Except.ok.injEq, Prod.mk.injEq] at h
      obtain ⟨hc, -⟩ := h
      subst hc
      exact ⟨rfl, rfl, rfl⟩
  · intro cid n st co c s2 h
    cases hf : s.cities.find? (fun c0 => c0.id == cid) with
    | none => simp [update_city, hf] at h
    | some c0 =>
      simp only [update_city, hf] at h
      split at h
      · simp at h
      · rw [Except.ok.injEq, Prod.mk.injEq] at h
        obtain ⟨hc, -⟩ := h
        subst hc
        exact ⟨rfl, rfl, rfl⟩
  · intro n k nb s2 h
    simp only [create_neighborhood] at h
    split at h
    · simp at h
    · split at h
      · simp at h
      · rw [Except.ok.injEq, Prod.mk.injEq] at h
        obtain ⟨hc, -⟩ := h
        subst hc
        rfl
  · intro nid n k nb s2 h
    cases hf : s.neighborhoods.find? (fun nb0 => nb0.id == nid) with
    | none => simp [update_neighborhood, hf] at h
    | some nb0 =>
      simp only [update_neighborhood, hf] at h
      split at h
      · simp at h
      · split at h
        · simp at h
        · rw [Except.ok.injEq, Prod.mk.injEq] at h
          obtain ⟨hc, -⟩ := h
          subst hc
          rfl
  · intro n k st s2 h
    simp only [create_street] at h
    split at h
    · simp at h
    · split at h
      · simp at h
      · rw [Except.ok.injEq, Prod.mk.injEq] at h
        obtain ⟨hc, -⟩ := h
        subst hc
        rfl
  · intro stid n k st s2 h
    cases hf : s.streets.find? (fun st0 => st0.id == stid) with
    | none => simp [update_street, hf] at h
    | some st0 =>
      simp only [update_street, hf] at h
      split at h
      · simp at h
      · split at h
        · simp at h
        · rw [Except.ok.injEq, Prod.mk.injEq] at h
          obtain ⟨hc, -⟩ := h
          subst hc
          rfl
  · intro n k ad ps s2 h
    simp only [create_police_station] at h
    split at h
    · simp at h
    · split at h
      · simp at h
      · rw [Except.ok.injEq, Prod.mk.injEq] at h
        obtain ⟨hc, -⟩ := h
        subst hc
        exact ⟨rfl, rfl⟩
  · intro pid n k ad ps s2 h
    cases hf : s.policeStations.find? (fun ps0 => ps0.id == pid) with
    | none => simp [update_police_station, hf] at h
    | some ps0 =>
      simp only [update_police_station, hf] at h
      split at h
      · simp at h
      · split at h
        · simp at h
        · rw [Except.ok.injEq, Prod.mk.injEq] at h
          obtain ⟨hc, -⟩ := h
          subst hc
          exact ⟨rfl, rfl⟩

/-- Claim C5 counterexample: creating a City whose required name is blank
(empty after trimming) does not raise any ValidationError — the row is
persisted with the empty string as its name. -/
theorem create_city_blank_name_cex :
    create_city emptyStore "   " none none =
      Except.ok (⟨1, "", none, none⟩, ⟨[⟨1, "", none, none⟩], [], [], []⟩) := rfl

/-- Result of `create_city c6Store " X " (some " il ") (some "  ")`. -/
def c5s1 : Store :=
  ⟨[⟨1, "C", none, none⟩, ⟨2, "X", some "il", none⟩], [⟨1, "N", 1⟩], [⟨1, "S", 1⟩],
   [⟨1, "P", some 1, none⟩]⟩

/-- Result of `update_city c6Store 1 " Y " (some "") (some " us ")`. -/
def c5s2 : Store :=
  ⟨[⟨1, "Y", none, some "us"⟩], [⟨1, "N", 1⟩], [⟨1, "S", 1⟩], [⟨1, "P", some 1, none⟩]⟩

/-- Result of `create_neighborhood c6Store " M " 1`. -/
def c5s3 : Store :=
  ⟨[⟨1, "C", none, none⟩], [⟨1, "N", 1⟩, ⟨2, "M", 1⟩], [⟨1, "S", 1⟩], [⟨1, "P", some 1, none⟩]⟩

/-- Result of `update_neighborhood c6Store 1 " M2 " 1`. -/
def c5s4 : Store :=
  ⟨[⟨1, "C", none, none⟩], [⟨1, "M2", 1⟩], [⟨1, "S", 1⟩], [⟨1, "P", some 1, none⟩]⟩

/-- Result of `create_street c6Store " R " 1`. -/
def c5s5 : Store :=
  ⟨[⟨1, "C", none, none⟩], [⟨1, "N", 1⟩], [⟨1, "S", 1⟩, ⟨2, "R", 1⟩], [⟨1, "P", some 1, none⟩]⟩

/-- Result of `update_street c6Store 1 " R2 " 1`. -/
def c5s6 : Store :=
  ⟨[⟨1, "C", none, none⟩], [⟨1, "N", 1⟩], [⟨1, "R2", 1⟩], [⟨1, "P", some 1, none⟩]⟩

/-- Result of `create_police_station c6Store " Q " none (some " a ")`. -/
def c5s7 : Store :=
  ⟨[⟨1, "C", none, none⟩], [⟨1, "N", 1⟩], [⟨1, "S", 1⟩],
   [⟨1, "P", some 1, none⟩, ⟨2, "Q", none, some "a"⟩]⟩

/-- Result of `update_police_station c6Store 1 " Q2 " none (some "  ")`. -/
def c5s8 : Store :=
  ⟨[⟨1, "C", none, none⟩], [⟨1, "N", 1⟩], [⟨1, "S", 1⟩], [⟨1, "Q2", none, none⟩]⟩

/-- Witness for claim C5 (amended): one concrete create and update per
entity type on `c6Store`, with the stored field values related to the
trimmed inputs. -/
theorem normalization_on_write_witness :
    ((⟨2, "X", some "il", none⟩ : City).name = pyStrip " X " ∧
      (⟨2, "X", some "il", none⟩ : City).state = normOpt (some " il ") ∧
      (⟨2, "X", some "il", none⟩ : City).country = normOpt (some "  ")) ∧
    ((⟨1, "Y", none, some "us"⟩ : City).name = pyStrip " Y " ∧
      (⟨1, "Y", none, some "us"⟩ : City).state = normOpt (some "") ∧
      (⟨1, "Y", none, some "us"⟩ : City).country = normOpt (some " us ")) ∧
    (⟨2, "M", 1⟩ : Neighborhood).name = pyStrip " M " ∧
    (⟨1, "M2", 1⟩ : Neighborhood).name = pyStrip " M2 " ∧
    (⟨2, "R", 1⟩ : Street).name = pyStrip " R " ∧
    (⟨1, "R2", 1⟩ : Street).name = pyStrip " R2 " ∧
    ((⟨2, "Q", none, some "a"⟩ : PoliceStation).name = pyStrip " Q " ∧
      (⟨2, "Q", none, some "a"⟩ : PoliceStation).address = normOpt (some " a ")) ∧
    ((⟨1, "Q2", none, none⟩ : PoliceStation).name = pyStrip " Q2 " ∧
      (⟨1, "Q2", none, none⟩ : PoliceStation).address = normOpt (some "  ")) := by
  have h := normalization_on_write c6Store
  exact ⟨h.1 " X " (some " il ") (some "  ") ⟨2, "X", some "il", none⟩ c5s1 rfl,
    h.2.1 1 " Y " (some "") (some " us ") ⟨1, "Y", none, some "us"⟩ c5s2 rfl,
    h.2.2.1 " M " 1 ⟨2, "M", 1⟩ c5s3 rfl,
    h.2.2.2.1 1 " M2 " 1 ⟨1, "M2", 1⟩ c5s4 rfl,
    h.2.2.2.2.1 " R " 1 ⟨2, "R", 1⟩ c5s5 rfl,
    h.2.2.2.2.2.1 1 " R2 " 1 ⟨1, "R2", 1⟩ c5s6 rfl,
    h.2.2.2.2.2.2.1 " Q " none (some " a ") ⟨2, "Q", none, some "a"⟩ c5s7 rfl,
    h.2.2.2.2.2.2.2 1 " Q2 " none (some "  ") ⟨1, "Q2", none, none⟩ c5s8 rfl⟩

/-- Claim C7 (amended): an absent parent filter returns every stored row;
a present non-zero filter that matches no stored row's parent reference
returns the empty sequence; a present filter equal to 0 is however treated
like "no filter" (Python truthiness), which is what the counterexample
exhibits. -/
theorem list_parent_filter (s : Store) (cid nid pid : Nat)
    (hcid : cid ≠ 0) (hnid : nid ≠ 0) (hpid : pid ≠ 0)
    (hcm : ∀ nb ∈ s.neighborhoods, nb.city_id ≠ cid)
    (hnm : ∀ st ∈ s.streets, st.neighborhood_id ≠ nid)
    (hpm : ∀ ps ∈ s.policeStations, ps.city_id ≠ some pid) :
    (∀ nb : Neighborhood, nb ∈ list_neighborhoods s none ↔ nb ∈ s.neighborhoods) ∧
    (∀ st : Street, st ∈ list_streets s none ↔ st ∈ s.streets) ∧
    (∀ ps : PoliceStation, ps ∈ list_police_stations s none ↔ ps ∈ s.policeStations) ∧
    list_neighborhoods s (some cid) = [] ∧
    list_streets s (some nid) = [] ∧
    list_police_stations s (some pid) = [] := by
  refine ⟨?_, ?_, ?_, ?_, ?_, ?_⟩
  · intro nb
    exact mem_sortByLe _ nb s.neighborhoods
  · intro st
    exact mem_sortByLe _ st s.streets
  · intro ps
    exact mem_sortByLe _ ps s.policeStations
  · have hfil : s.neighborhoods.filter (fun nb => nb.city_id == cid) = [] := by
      rw [List.filter_eq_nil_iff]
      intro nb hm
      simp [hcm nb hm]
    show sortByLe (fun a b => nameLe a.name b.name)
      (if cid ≠ 0 then s.neighborhoods.filter (fun nb => nb.city_id == cid)
       else s.neighborhoods) = []
    rw [if_pos hcid, hfil]
    rfl
  · have hfil : s.streets.filter (fun st => st.neighborhood_id == nid) = [] := by
      rw [List.filter_eq_nil_iff]
      intro st hm
      simp [hnm st hm]
    show sortByLe (fun a b => nameLe a.name b.name)
      (if nid ≠ 0 then s.streets.filter (fun st => st.neighborhood_id == nid)
       else s.streets) = []
    rw [if_pos hnid, hfil]
    rfl
  · have hfil : s.policeStations.filter (fun ps => ps.city_id == some pid) = [] := by
      rw [List.filter_eq_nil_iff]
      intro ps hm
      simp [hpm ps hm]
    show sortByLe (fun a b => nameLe a.name b.name)
      (if pid ≠ 0 then s.policeStations.filter (fun ps => ps.city_id == some pid)
       else s.policeStations) = []
    rw [if_pos hpid, hfil]
    rfl

/-- Store with one City and one Neighborhood under it (city 1), used for
the C7 witness and counterexample. -/
def c7Store : Store := ⟨[⟨1, "C", none, none⟩], [⟨1, "N", 1⟩], [⟨1, "S", 1⟩], [⟨1, "P", some 1, none⟩]⟩

/-- Witness for claim C7 (amended) on `c7Store` with the unmatched parent
identity 2. -/
theorem list_parent_filter_witness :
    ((⟨1, "N", 1⟩ : Neighborhood) ∈ list_neighborhoods c7Store none ↔
      (⟨1, "N", 1⟩ : Neighborhood) ∈ c7Store.neighborhoods) ∧
    ((⟨1, "S", 1⟩ : Street) ∈ list_streets c7Store none ↔
      (⟨1, "S", 1⟩ : Street) ∈ c7Store.streets) ∧
    ((⟨1, "P", some 1, none⟩ : PoliceStation) ∈ list_police_stations c7Store none ↔
      (⟨1, "P", some 1, none⟩ : PoliceStation) ∈ c7Store.policeStations) ∧
    list_neighborhoods c7Store (some 2) = [] ∧
    list_streets c7Store (some 2) = [] ∧
    list_police_stations c7Store (some 2) = [] := by
  have h := list_parent_filter c7Store 2 2 2 (by decide) (by decide) (by decide)
    (by decide) (by decide) (by decide)
  exact ⟨h.1 ⟨1, "N", 1⟩, h.2.1 ⟨1, "S", 1⟩, h.2.2.1 ⟨1, "P", some 1, none⟩,
    h.2.2.2.1, h.2.2.2.2.1, h.2.2.2.2.2⟩

/-- Claim C7 counterexample: the filter value 0 is present and matches no
stored row's parent reference (the only neighborhood has city 1), yet the
query returns all rows instead of the empty sequence, because
`if city_id:` treats 0 like "no filter". -/
theorem list_filter_zero_cex :
    (∀ nb ∈ c7Store.neighborhoods, nb.city_id ≠ 0) ∧
    list_neighborhoods c7Store (some 0) = [⟨1, "N", 1⟩] := by
  exact ⟨by decide, rfl⟩

/-- Witness for claim C6 on `c6Store` with the missing identity 9, plus a
concrete delete-then-delete-again for each entity type. -/
theorem missing_identity_not_found_witness :
    update_city c6Store 9 "X" none none = Except.error (PyErr.valueError "City not found") ∧
    delete_city c6Store 9 = Except.error (PyErr.valueError "City not found") ∧
    update_neighborhood c6Store 9 "X" 1 = Except.error (PyErr.valueError "Neighborhood not found") ∧
    delete_neighborhood c6Store 9 = Except.error (PyErr.valueError "Neighborhood not found") ∧
    update_street c6Store 9 "X" 1 = Except.error (PyErr.valueError "Street not found") ∧
    delete_street c6Store 9 = Except.error (PyErr.valueError "Street not found") ∧
    update_police_station c6Store 9 "X" none none = Except.error (PyErr.valueError "Police station not found") ∧
    delete_police_station c6Store 9 = Except.error (PyErr.valueError "Police station not found") ∧
    delete_city emptyStore 1 = Except.error (PyErr.valueError "City not found") ∧
    delete_neighborhood ⟨[⟨1, "C", none, none⟩], [], [], [⟨1, "P", some 1, none⟩]⟩ 1 =
      Except.error (PyErr.valueError "Neighborhood not found") ∧
    delete_street ⟨[⟨1, "C", none, none⟩], [⟨1, "N", 1⟩], [], [⟨1, "P", some 1, none⟩]⟩ 1 =
      Except.error (PyErr.valueError "Street not found") ∧
    delete_police_station ⟨[⟨1, "C", none, none⟩], [⟨1, "N", 1⟩], [⟨1, "S", 1⟩], []⟩ 1 =
      Except.error (PyErr.valueError "Police station not found") := by
  have h := missing_identity_not_found c6Store 9 9 9 9 rfl rfl rfl rfl
  refine ⟨h.1 "X" none none, h.2.1, h.2.2.1 "X" 1, h.2.2.2.1, h.2.2.2.2.1 "X" 1,
    h.2.2.2.2.2.1, h.2.2.2.2.2.2.1 "X" none none, h.2.2.2.2.2.2.2.1, ?_, ?_, ?_, ?_⟩
  · exact h.2.2.2.2.2.2.2.2.1 1 emptyStore rfl
  · exact h.2.2.2.2.2.2.2.2.2.1 1 ⟨[⟨1, "C", none, none⟩], [], [], [⟨1, "P", some 1, none⟩]⟩ rfl
  · exact h.2.2.2.2.2.2.2.2.2.2.1 1 ⟨[⟨1, "C", none, none⟩], [⟨1, "N", 1⟩], [], [⟨1, "P", some 1, none⟩]⟩ rfl
  · exact h.2.2.2.2.2.2.2.2.2.2.2 1 ⟨[⟨1, "C", none, none⟩], [⟨1, "N", 1⟩], [⟨1, "S", 1⟩], []⟩ rfl

/-- Claim C9 (amended): at creation each entity receives an identity
strictly greater than every identity currently in its table (so it is
fresh among the live rows), and updates never change any identity; but an
identity CAN be re-issued to a later-created entity after the
highest-numbered row is deleted, because the ids are SQLite rowids
allocated as max+1 (see the counterexample). -/
theorem identity_assignment (s : Store) :
    (∀ n st co c s2, create_city s n st co = Except.ok (c, s2) →
      (∀ x ∈ s.cities, x.id < c.id) ∧
      s2.cities.map City.id = s.cities.map City.id ++ [c.id]) ∧
    (∀ n k nb s2, create_neighborhood s n k = Except.ok (nb, s2) →
      (∀ x ∈ s.neighborhoods, x.id < nb.id) ∧
      s2.neighborhoods.map Neighborhood.id = s.neighborhoods.map Neighborhood.id ++ [nb.id]) ∧
    (∀ n k st s2, create_street s n k = Except.ok (st, s2) →
      (∀ x ∈ s.streets, x.id < st.id) ∧
      s2.streets.map Street.id = s.streets.map Street.id ++ [st.id]) ∧
    (∀ n k ad ps s2, create_police_station s n k ad = Except.ok (ps, s2) →
      (∀ x ∈ s.policeStations, x.id < ps.id) ∧
      s2.policeStations.map PoliceStation.id = s.policeStations.map PoliceStation.id ++ [ps.id]) ∧
    (∀ cid n st co c s2, update_city s cid n st co = Except.ok (c, s2) →
      c.id = cid ∧ s2.cities.map City.id = s.cities.map City.id) ∧
    (∀ nid n k nb s2, update_neighborhood s nid n k = Except.ok (nb, s2) →
      nb.id = nid ∧ s2.neighborhoods.map Neighborhood.id = s.neighborhoods.map Neighborhood.id) ∧
    (∀ stid n k st s2, update_street s stid n k = Except.ok (st, s2) →
      st.id = stid ∧ s2.streets.map Street.id = s.streets.map Street.id) ∧
    (∀ pid n k ad ps s2, update_police_station s pid n k ad = Except.ok (ps, s2) →
      ps.id = pid ∧ s2.policeStations.map PoliceStation.id = s.policeStations.map PoliceStation.id) := by
  refine ⟨?_, ?_, ?_, ?_, ?_, ?_, ?_, ?_⟩
  · intro n st co c s2 h
    simp only [create_city] at h
    split at h
    · simp at h
    · rw [Except.ok.injEq, Prod.mk.injEq] at h
      obtain ⟨hc, hs⟩ := h
      subst hc
      subst hs
      refine ⟨?_, by simp⟩
      intro x hx
      exact lt_nextId x.id _ (List.mem_map_of_mem City.id hx)
  · intro n k nb s2 h
    simp only [create_neighborhood] at h
    split at h
    · simp at h
    · split at h
      · simp at h
      · rw [Except.ok.injEq, Prod.mk.injEq] at h
        obtain ⟨hc, hs⟩ := h
        subst hc
        subst hs
        refine ⟨?_, by simp⟩
        intro x hx
        exact lt_nextId x.id _ (List.mem_map_of_mem Neighborhood.id hx)
  · intro n k st s2 h
    simp only [create_street] at h
    split at h
    · simp at h
    · split at h
      · simp at h
      · rw [Except.ok.injEq, Prod.mk.injEq] at h
        obtain ⟨hc, hs⟩ := h
        subst hc
        subst hs
        refine ⟨?_, by simp⟩
        intro x hx
        exact lt_nextId x.id _ (List.mem_map_of_mem Street.id hx)
  · intro n k ad ps s2 h
    simp only [create_police_station] at h
    split at h
    · simp at h
    · split at h
      · simp at h
      · rw [Except.ok.injEq, Prod.mk.injEq] at h
        obtain ⟨hc, hs⟩ := h
        subst hc
        subst hs
        refine ⟨?_, by simp⟩
        intro x hx
        exact lt_nextId x.id _ (List.mem_map_of_mem PoliceStation.id hx)
  · intro cid n st co c s2 h
    cases hf : s.cities.find? (fun c0 => c0.id == cid) with
    | none => simp [update_city, hf] at h
    | some c0 =>
      have hid : c0.id = cid := by simpa using List.find?_some hf
      simp only [update_city, hf] at h
      split at h
      · simp at h
      · rw [Except.ok.injEq, Prod.mk.injEq] at h
        obtain ⟨hc, hs⟩ := h
        subst hc
        subst hs
        refine ⟨hid, ?_⟩
        apply map_map_eq_of
        intro a _
        by_cases ha : a.id = cid
        · simp [ha, hid]
        · simp [ha]
  · intro nid n k nb s2 h
    cases hf : s.neighborhoods.find? (fun nb0 => nb0.id == nid) with
    | none => simp [update_neighborhood, hf] at h
    | some nb0 =>
      have hid : nb0.id = nid := by simpa using List.find?_some hf
      simp only [update_neighborhood, hf] at h
      split at h
      · simp at h
      · split at h
        · simp at h
        · rw [Except.ok.injEq, Prod.mk.injEq] at h
          obtain ⟨hc, hs⟩ := h
          subst hc
          subst hs
          refine ⟨hid, ?_⟩
          apply map_map_eq_of
          intro a _
          by_cases ha : a.id = nid
          · simp [ha, hid]
          · simp [ha]
  · intro stid n k st s2 h
    cases hf : s.streets.find? (fun st0 => st0.id == stid) with
    | none => simp [update_street, hf] at h
    | some st0 =>
      have hid : st0.id = stid := by simpa using List.find?_some hf
      simp only [update_street, hf] at h
      split at h
      · simp at h
      · split at h
        · simp at h
        · rw [Except.ok.injEq, Prod.mk.injEq] at h
          obtain ⟨hc, hs⟩ := h
          subst hc
          subst hs
          refine ⟨hid, ?_⟩
          apply map_map_eq_of
          intro a _
          by_cases ha : a.id = stid
          · simp [ha, hid]
          · simp [ha]
  · intro pid n k ad ps s2 h
    cases hf : s.policeStations.find? (fun ps0 => ps0.id == pid) with
    | none => simp [update_police_station, hf] at h
    | some ps0 =>
      have hid : ps0.id = pid := by simpa using List.find?_some hf
      simp only [update_police_station, hf] at h
      split at h
      · simp at h
      · split at h
        · simp at h
        · rw [Except.ok.injEq, Prod.mk.injEq] at h
          obtain ⟨hc, hs⟩ := h
          subst hc
          subst hs
          refine ⟨hid, ?_⟩
          apply map_map_eq_of
          intro a _
          by_cases ha : a.id = pid
          · simp [ha, hid]
          · simp [ha]

/-- Claim C9 counterexample: create a City (id 1), delete it, create
another City — the new City is assigned the identity 1 again, so
identities ARE reused after deletions (SQLite rowid reallocation without
AUTOINCREMENT). -/
theorem identity_reuse_cex :
    create_city emptyStore "A" none none =
      Except.ok (⟨1, "A", none, none⟩, ⟨[⟨1, "A", none, none⟩], [], [], []⟩) ∧
    delete_city ⟨[⟨1, "A", none, none⟩], [], [], []⟩ 1 = Except.ok emptyStore ∧
    create_city emptyStore "B" none none =
      Except.ok (⟨1, "B", none, none⟩, ⟨[⟨1, "B", none, none⟩], [], [], []⟩) ∧
    (⟨1, "A", none, none⟩ : City).id = (⟨1, "B", none, none⟩ : City).id :=
  ⟨rfl, rfl, rfl, rfl⟩

/-- Witness for claim C9 (amended): one concrete create and update per
entity type on `c6Store`. -/
theorem identity_assignment_witness :
    ((∀ x ∈ c6Store.cities, x.id < (2 : Nat)) ∧
      (c6Store.cities ++ [(⟨2, "X", none, none⟩ : City)]).map City.id =
        c6Store.cities.map City.id ++ [2]) ∧
    ((∀ x ∈ c6Store.neighborhoods, x.id < (2 : Nat)) ∧
      (c6Store.neighborhoods ++ [(⟨2, "M", 1⟩ : Neighborhood)]).map Neighborhood.id =
        c6Store.neighborhoods.map Neighborhood.id ++ [2]) ∧
    ((∀ x ∈ c6Store.streets, x.id < (2 : Nat)) ∧
      (c6Store.streets ++ [(⟨2, "R", 1⟩ : Street)]).map Street.id =
        c6Store.streets.map Street.id ++ [2]) ∧
    ((∀ x ∈ c6Store.policeStations, x.id < (2 : Nat)) ∧
      (c6Store.policeStations ++ [(⟨2, "Q", none, none⟩ : PoliceStation)]).map PoliceStation.id =
        c6Store.policeStations.map PoliceStation.id ++ [2]) ∧
    ((⟨1, "Y", none, some "us"⟩ : City).id = 1 ∧
      (c5s2.cities.map City.id = c6Store.cities.map City.id)) ∧
    ((⟨1, "M2", 1⟩ : Neighborhood).id = 1 ∧
      (c5s4.neighborhoods.map Neighborhood.id = c6Store.neighborhoods.map Neighborhood.id)) ∧
    ((⟨1, "R2", 1⟩ : Street).id = 1 ∧
      (c5s6.streets.map Street.id = c6Store.streets.map Street.id)) ∧
    ((⟨1, "Q2", none, none⟩ : PoliceStation).id = 1 ∧
      (c5s8.policeStations.map PoliceStation.id = c6Store.policeStations.map PoliceStation.id)) := by
  have h := identity_assignment c6Store
  exact ⟨h.1 "X" none none ⟨2, "X", none, none⟩
      ⟨c6Store.cities ++ [(⟨2, "X", none, none⟩ : City)], c6Store.neighborhoods, c6Store.streets,
        c6Store.policeStations⟩ rfl,
    h.2.1 "M" 1 ⟨2, "M", 1⟩
      ⟨c6Store.cities, c6Store.neighborhoods ++ [(⟨2, "M", 1⟩ : Neighborhood)], c6Store.streets,
        c6Store.policeStations⟩ rfl,
    h.2.2.1 "R" 1 ⟨2, "R", 1⟩
      ⟨c6Store.cities, c6Store.neighborhoods, c6Store.streets ++ [(⟨2, "R", 1⟩ : Street)],
        c6Store.policeStations⟩ rfl,
    h.2.2.2.1 "Q" none none ⟨2, "Q", none, none⟩
      ⟨c6Store.cities, c6Store.neighborhoods, c6Store.streets,
        c6Store.policeStations ++ [(⟨2, "Q", none, none⟩ : PoliceStation)]⟩ rfl,
    h.2.2.2.2.1 1 " Y " (some "") (some " us ") ⟨1, "Y", none, some "us"⟩ c5s2 rfl,
    h.2.2.2.2.2.1 1 " M2 " 1 ⟨1, "M2", 1⟩ c5s4 rfl,
    h.2.2.2.2.2.2.1 1 " R2 " 1 ⟨1, "R2", 1⟩ c5s6 rfl,
    h.2.2.2.2.2.2.2 1 " Q2 " none (some "  ") ⟨1, "Q2", none, none⟩ c5s8 rfl⟩

/-- The row that `create_city s n st co` builds before flushing. -/
def c4Row (s : Store) (n : String) (st co : Option String) : City :=
  ⟨nextId (s.cities.map City.id), pyStrip n, normOpt st, normOpt co⟩

/-- `create_city` written as a single conditional over `c4Row`
(definitional restatement, used to reason about chains of creates). -/
theorem create_city_eq (s : Store) (n : String) (st co : Option String) :
    create_city s n st co =
      if s.cities.any (fun c0 => cityConflict c0 (c4Row s n st co)) then
        Except.error (PyErr.integrityError cityUqMsg)
      else Except.ok (c4Row s n st co,
        { s with cities := s.cities ++ [c4Row s n st co] }) := rfl

/-- The store after a first successful `create_city s n (some st) (some co)`. -/
def c4Store1 (s : Store) (n st co : String) : Store :=
  { s with cities := s.cities ++ [c4Row s n (some st) (some co)] }

/-- Claim C4 (amended): with a name not yet present and with state and
country PRESENT (non-empty after trimming), the first creation succeeds
and an identical second creation fails with the uniqueness-constraint
IntegrityError (the failure the integrity translator maps to
DuplicateEntity); a second creation differing only in the state value
succeeds.  When state and country are both absent the second identical
creation does NOT fail (see the counterexample and claim C10). -/
theorem create_city_duplicate (s : Store) (n st co st2 : String)
    (hfresh : ∀ c ∈ s.cities, c.name ≠ pyStrip n)
    (hst : pyStrip st ≠ "") (hco : pyStrip co ≠ "")
    (hne : pyStrip st2 ≠ pyStrip st) :
    ∃ c1 s1, create_city s n (some st) (some co) = Except.ok (c1, s1) ∧
      create_city s1 n (some st) (some co) = Except.error (PyErr.integrityError cityUqMsg) ∧
      ∃ c2 s2, create_city s1 n (some st2) (some co) = Except.ok (c2, s2) := by
  have hnst : normOpt (some st) = some (pyStrip st) := by simp [normOpt, hst]
  have hnco : normOpt (some co) = some (pyStrip co) := by simp [normOpt, hco]
  have hcities1 : (c4Store1 s n st co).cities = s.cities ++ [c4Row s n (some st) (some co)] := rfl
  refine ⟨c4Row s n (some st) (some co), c4Store1 s n st co, ?_, ?_, ?_⟩
  · rw [create_city_eq]
    have hany1 : (s.cities.any fun c0 => cityConflict c0 (c4Row s n (some st) (some co)))
        = false := by
      rw [List.any_eq_false]
      intro c0 hm
      simp [cityConflict, c4Row, hfresh c0 hm]
    rw [hany1]
    rfl
  · rw [create_city_eq]
    have hany2 : ((c4Store1 s n st co).cities.any fun c0 =>
        cityConflict c0 (c4Row (c4Store1 s n st co) n (some st) (some co))) = true := by
      rw [List.any_eq_true]
      refine ⟨c4Row s n (some st) (some co), ?_, ?_⟩
      · rw [hcities1]
        simp
      · simp [cityConflict, c4Row, hnst, hnco, sqlEq]
    rw [hany2]
    rfl
  · rw [create_city_eq]
    have hany3 : ((c4Store1 s n st co).cities.any fun c0 =>
        cityConflict c0 (c4Row (c4Store1 s n st co) n (some st2) (some co))) = false := by
      rw [List.any_eq_false]
      intro c0 hm
      rw [hcities1] at hm
      rcases List.mem_append.mp hm with hm0 | hm1
      · simp [cityConflict, c4Row, hfresh c0 hm0]
      · have hc0 : c0 = c4Row s n (some st) (some co) := by simpa using hm1
        subst hc0
        by_cases h2 : pyStrip st2 = ""
        · have hn2 : normOpt (some st2) = none := by simp [normOpt, h2]
          simp [cityConflict, c4Row, hnst, hn2, sqlEq]
        · have hn2 : normOpt (some st2) = some (pyStrip st2) := by simp [normOpt, h2]
          simp [cityConflict, c4Row, hnst, hn2, sqlEq, Ne.symm hne]
    rw [hany3]
    exact ⟨_, _, rfl⟩

/-- Witness for claim C4 (amended) at the spec's own example: Springfield
IL/US twice, then Springfield OH/US. -/
theorem create_city_duplicate_witness :
    ∃ c1 s1, create_city emptyStore "Springfield" (some "IL") (some "US") = Except.ok (c1, s1) ∧
      create_city s1 "Springfield" (some "IL") (some "US") =
        Except.error (PyErr.integrityError cityUqMsg) ∧
      ∃ c2 s2, create_city s1 "Springfield" (some "OH") (some "US") = Except.ok (c2, s2) :=
  create_city_duplicate emptyStore "Springfield" "IL" "US" "OH"
    (by simp [emptyStore]) (by decide) (by decide) (by decide)

/-- Claim C4 counterexample: with state and country both absent —
identical (name, state, country) field values — the second creation
succeeds instead of failing with a duplicate failure, because SQL NULLs
never compare equal under the UNIQUE constraint. -/
theorem create_city_identical_null_cex :
    create_city emptyStore "Dup" none none =
      Except.ok (⟨1, "Dup", none, none⟩, ⟨[⟨1, "Dup", none, none⟩], [], [], []⟩) ∧
    create_city ⟨[⟨1, "Dup", none, none⟩], [], [], []⟩ "Dup" none none =
      Except.ok (⟨2, "Dup", none, none⟩,
        ⟨[⟨1, "Dup", none, none⟩, ⟨2, "Dup", none, none⟩], [], [], []⟩) :=
  ⟨rfl, rfl⟩

end PMS
